import Mathlib

/-!
Shallow embedding of the sunpycube core (sunpycube/cube/cube_utils.py and
sunpycube/wcs_util.py): the data model, axis ordering, index classification,
unit-to-pixel conversion, dimension reduction, WCS augmentation and the
sequence-as-cube index translation, together with theorems settling the
specification claims about them.
-/

namespace Sunpycube

/-- Kinds of Python exceptions raised by the embedded code.  CubeError is the
repository exception class (cube_utils.py, class CubeError) carrying a numeric
code; the others are Python built-ins or external-library errors. -/
inductive PyErr where
  | valueError (msg : String)
  | indexError
  | typeError
  | unitConvError
  | wcsResolveError
  | cubeError (code : Nat) (msg : String)
  deriving DecidableEq

/-- Decidable equality for Except results, used to evaluate the embedding on
concrete inputs. -/
instance {ε α : Type} [DecidableEq ε] [DecidableEq α] : DecidableEq (Except ε α) := fun x y =>
  match x, y with
  | .ok a, .ok b =>
      if h : a = b then isTrue (h ▸ rfl) else isFalse (fun hh => h (Except.ok.inj hh))
  | .error a, .error b =>
      if h : a = b then isTrue (h ▸ rfl) else isFalse (fun hh => h (Except.error.inj hh))
  | .ok _, .error _ => isFalse (fun hh => Except.noConfusion hh)
  | .error _, .ok _ => isFalse (fun hh => Except.noConfusion hh)

/-- True when the error is the repository CubeError kind. -/
def PyErr.isCubeErr : PyErr → Bool
  | .cubeError _ _ => true
  | _ => false

/-- True when the error is a Python ValueError. -/
def PyErr.isValueErr : PyErr → Bool
  | .valueError _ => true
  | _ => false

/-- A Python slice object with integer (or absent) bounds, as fed to array
indexing after unit conversion. -/
structure PySlice where
  start : Option Int
  stop : Option Int
  step : Option Int
  deriving DecidableEq

/-- One component of a getitem argument: a Python int, a slice object, or a
value of some other type (anything that is neither int nor slice). -/
inductive PItem where
  | pint (n : Int)
  | pslc (s : PySlice)
  | pother (tag : String)
  deriving DecidableEq

/-- A getitem argument: a single (non-tuple) component or a tuple of
components.  This is the polymorphic IndexSpec shape of the spec. -/
inductive Item where
  | single (e : PItem)
  | tup (es : List PItem)
  deriving DecidableEq

/-- The types tested by the iter_isinstance patterns in cube_utils.py:
int and slice. -/
inductive PTy where
  | tInt
  | tSlice
  deriving DecidableEq

/-- isinstance check of one component against int or slice. -/
def PItem.isTy : PItem → PTy → Bool
  | .pint _, .tInt => true
  | .pslc _, .tSlice => true
  | _, _ => false

/-- isinstance(item, int) on the whole getitem argument. -/
def Item.isInt : Item → Bool
  | .single (.pint _) => true
  | _ => false

/-- isinstance(item, slice) on the whole getitem argument. -/
def Item.isSlice : Item → Bool
  | .single (.pslc _) => true
  | _ => false

/-- isinstance(item, tuple) on the whole getitem argument. -/
def Item.isTuple : Item → Bool
  | .tup _ => true
  | _ => false

/-- any(isinstance(i, int) for i in item), false on non-tuples. -/
def Item.anyInt : Item → Bool
  | .tup es => es.any (fun e => match e with | .pint _ => true | _ => false)
  | _ => false

/-- item[i] for a tuple item; none models the Python error raised when the
argument is not subscriptable or the index is out of range. -/
def Item.at? : Item → Nat → Option PItem
  | .tup es, i => es.get? i
  | _, _ => none

/-- cube_utils.iter_isinstance: the object must be a tuple, and its components
must match one of the given type tuples elementwise (same length, each
component an instance of the paired type). -/
def iter_isinstance (obj : Item) (type_tuples : List (List PTy)) : Bool :=
  match obj with
  | .single _ => false
  | .tup es =>
      type_tuples.any (fun types =>
        es.length == types.length && (es.zip types).all (fun p => p.1.isTy p.2))

/-- Sort key used by cube_utils.select_order: the priority tuple built for
each CTYPE (TIME and UTC first, WAVE second, HPLT-TAN third, every other type
after those, keyed by its first position in the list). -/
def ax_priority (axtypes : List String) (t : String) : Nat × String :=
  if t = "TIME" ∨ t = "UTC" then (0, t)
  else if t = "WAVE" then (1, t)
  else if t = "HPLT-TAN" then (2, t)
  else (List.indexOf t axtypes + 3, t)

/-- Boolean lexicographic comparison on the priority pairs, mirroring Python
tuple comparison used by list.sort. -/
def pairLeB (a b : Nat × String) : Bool :=
  a.1 < b.1 || (a.1 == b.1 && (a.2 == b.2 || a.2 < b.2))

/-- cube_utils.select_order: builds the priority pair for every CTYPE, sorts
the pairs, and maps each sorted tag back to its first index in the input
list. -/
def select_order (axtypes : List String) : List Nat :=
  let order := axtypes.map (ax_priority axtypes)
  let sorted := List.insertionSort (fun a b => pairLeB a b = true) order
  sorted.map (fun s => List.indexOf s.2 axtypes)

/-- The possible outcomes of getitem_3d classification (which handler the
if/elif chain dispatches to). -/
inductive D3 where
  | toMap
  | toSpectrum
  | toSpectrogram
  | toLightcurve
  | asCube
  | passthrough
  deriving DecidableEq

/-- Classification part of cube_utils.getitem_3d: the boolean decision table
over (axes, item) and the if/elif dispatch chain.  axes is the list
cube.axes_wcs.wcs.ctype of the rank-3 cube (three entries); construction of
the concrete output product is external (spec section 6) and not embedded. -/
def getitem_3d_dispatch (axes : List String) (item : Item) : D3 :=
  let slice_to_map := (axes.getD 1 "" != "WAVE") &&
    (item.isInt || iter_isinstance item [[.tInt, .tSlice], [.tInt, .tSlice, .tSlice]])
  let slice_to_spectrum :=
    ((item.isInt || iter_isinstance item
        [[.tInt, .tSlice], [.tInt, .tSlice, .tSlice], [.tInt, .tSlice, .tInt]]) &&
      (axes.getD 1 "" == "WAVE")) ||
    ((axes.getD 0 "" == "WAVE") && iter_isinstance item [[.tSlice, .tInt, .tInt]])
  let slice_to_spectrogram :=
    iter_isinstance item [[.tSlice, .tSlice, .tInt]] && (axes.getD 1 "" == "WAVE")
  let slice_to_lightcurve := (axes.getD 1 "" == "WAVE") &&
    iter_isinstance item [[.tSlice, .tInt, .tInt], [.tSlice, .tInt], [.tSlice, .tInt, .tSlice]]
  let stay_as_cube := item.isSlice || (item.isTuple && !item.anyInt)
  if slice_to_map then .toMap
  else if slice_to_spectrum then .toSpectrum
  else if slice_to_spectrogram then .toSpectrogram
  else if slice_to_lightcurve then .toLightcurve
  else if stay_as_cube then .asCube
  else .passthrough

/-- Argument selection of cube_utils.handle_slice_to_spectrum: the positional
arguments it passes to the external cube.slice_to_spectrum constructor
(None modelled as none).  A result of none models the Python error paths
(unbound variable for an unmatched 4-d item, or subscripting a
non-subscriptable item). -/
def handle_slice_to_spectrum_args (ndim : Nat) (item : Item) : Option (List (Option PItem)) :=
  if ndim == 3 then
    if item.isInt then
      match item with
      | .single e => some [some e, none]
      | .tup _ => none
    else if iter_isinstance item [[.tInt, .tSlice, .tInt]] then
      match item.at? 0, item.at? 2 with
      | some a, some b => some [some a, some b]
      | _, _ => none
    else if iter_isinstance item [[.tSlice, .tInt, .tInt]] then
      match item.at? 1, item.at? 2 with
      | some a, some b => some [some a, some b]
      | _, _ => none
    else
      match item.at? 0 with
      | some a => some [some a, none]
      | none => none
  else
    if iter_isinstance item [[.tInt, .tSlice, .tInt, .tInt]] then
      match item.at? 0, item.at? 2, item.at? 3 with
      | some a, some b, some c => some [some a, some b, some c]
      | _, _, _ => none
    else if iter_isinstance item [[.tInt, .tSlice, .tInt, .tSlice], [.tInt, .tSlice, .tInt]] then
      match item.at? 0, item.at? 2 with
      | some a, some b => some [some a, some b, none]
      | _, _ => none
    else if iter_isinstance item [[.tInt, .tSlice, .tSlice, .tInt]] then
      match item.at? 0, item.at? 3 with
      | some a, some b => some [some a, none, some b]
      | _, _ => none
    else none

/-- Product of a shape list (number of elements of a row-major array). -/
def listProd (l : List Nat) : Nat := l.foldr (· * ·) 1

/-- Concatenation of the images of f over l, written out so the embedding
controls its own lemmas. -/
def catMap (l : List α) (f : α → List β) : List β :=
  l.foldr (fun x acc => f x ++ acc) []

/-- A numpy ndarray: a row-major flat data list together with its shape. -/
structure NDArray where
  shape : List Nat
  data : List Int
  deriving DecidableEq

/-- ndarray.ndim. -/
def NDArray.ndim (a : NDArray) : Nat := a.shape.length

/-- numpy ndarray.take along an axis with an explicit index list (row-major
layout): the axis extent becomes the number of indices and every selected
hyperslab is copied in order.  Callers in this file only pass in-range
non-negative indices, so the negative-index wraparound of numpy is not
needed. -/
def NDArray.takeAx (a : NDArray) (indices : List Int) (axis : Nat) : NDArray :=
  let pre := listProd (a.shape.take axis)
  let n := a.shape.getD axis 0
  let post := listProd (a.shape.drop (axis + 1))
  let newdata := catMap (List.range pre) (fun o =>
    catMap indices (fun j =>
      (List.range post).map (fun i => a.data.getD (o * (n * post) + j.toNat * post + i) 0)))
  { shape := a.shape.set axis indices.length, data := newdata }

/-- Row-major decomposition of a flat position into a multi-index. -/
def unflatten (shape : List Nat) (k : Nat) : List Nat :=
  match shape with
  | [] => []
  | _ :: rest =>
      let r := listProd rest
      (k / r) :: unflatten rest (k % r)

/-- Row-major recomposition of a multi-index into a flat position. -/
def flattenIx (shape : List Nat) (ix : List Nat) : Nat :=
  match shape, ix with
  | _ :: srest, i :: irest => i * listProd srest + flattenIx srest irest
  | _, _ => 0

/-- numpy ndarray.transpose with an explicit axis order (row-major layout):
output axis i takes its extent from input axis order[i], and each output
element is read from the input position obtained by routing the coordinates
through the permutation. -/
def NDArray.transposeAx (a : NDArray) (order : List Nat) : NDArray :=
  let shape2 := order.map (fun p => a.shape.getD p 0)
  let data2 := (List.range (listProd shape2)).map (fun k =>
    let ix := unflatten shape2 k
    let src := (List.range a.shape.length).map (fun m => ix.getD (List.indexOf m order) 0)
    a.data.getD (flattenIx a.shape src) 0)
  { shape := shape2, data := data2 }

/-- The embedded WCS object: the per-axis keyword lists of the underlying
astropy wcs (ctype, cunit, crpix, crval, cdelt and the axis count) plus the
two flags the repository subclass adds in wcs_util.WCS.__init__. -/
structure WCSm where
  naxis : Nat
  ctype : List String
  cunit : List String
  crpix : List ℚ
  crval : List ℚ
  cdelt : List ℚ
  oriented : Bool
  was_augmented : Bool
  deriving DecidableEq

/-- Modelled from the spec: wcs_util.reindex_wcs is called by orient but its
definition is not among the sources under src/; per spec section 4.2 the
reindexed coordinate system reflects the new axis order, so every per-axis
keyword list is permuted by the given order. -/
def reindex_wcs (w : WCSm) (order : List Nat) : WCSm :=
  { w with
    ctype := order.map (fun i => w.ctype.getD i "")
    cunit := order.map (fun i => w.cunit.getD i "")
    crpix := order.map (fun i => w.crpix.getD i 0)
    crval := order.map (fun i => w.crval.getD i 0)
    cdelt := order.map (fun i => w.cdelt.getD i 0) }

/-- astropy WCS.deepcopy: an independent copy; identity on the pure value. -/
def WCSm.deepcopyW (w : WCSm) : WCSm := w

/-- Modelled from the spec: the astropy WCS slice operation used by
reduce_dim is external to this repository; per the pixel relation of spec
section 4.1, restricting an axis to start at a new first pixel shifts that
axis's reference pixel by the slice start (per-axis lists are stored in
reversed WCS order relative to the slice list). -/
def WCSm.sliceW (w : WCSm) (slices : List PySlice) : WCSm :=
  let n := w.crpix.length
  let crpix2 := (List.range n).map (fun i =>
    let ax := n - 1 - i
    match slices.get? ax with
    | some s => w.crpix.getD i 0 - ((s.start.getD 0 : Int) : ℚ)
    | none => w.crpix.getD i 0)
  { w with crpix := crpix2 }

/-- cube_utils.orient: no-op on an already-oriented WCS, validation of the
rank/axis-count pairing (raising Python ValueError exactly as in the
source), then the select_order permutation applied to the array, to every
auxiliary array, and to the WCS, with the oriented flag set on the result. -/
def orient (array : NDArray) (wcs : WCSm) (extra_arrs : List NDArray) :
    Except PyErr (NDArray × WCSm × List NDArray) :=
  if wcs.oriented then .ok (array, wcs, extra_arrs)
  else if array.ndim != 3 && array.ndim != 4 then
    .error (.valueError "Input array must be 3- or 4-dimensional")
  else if !((wcs.naxis == 3 && array.ndim == 3) ||
      (wcs.naxis == 4 && array.ndim == 4 && !wcs.was_augmented) ||
      (wcs.naxis == 4 && array.ndim == 3 && wcs.was_augmented)) then
    .error (.valueError "WCS must have the same dimensions as the array")
  else
    let axtypes := wcs.ctype
    let array_order := if wcs.was_augmented then select_order (axtypes.take 3).reverse
      else select_order axtypes
    let result_array := array.transposeAx array_order
    let wcs_order := select_order axtypes
    let rw0 := reindex_wcs wcs wcs_order
    let result_wcs := { rw0 with was_augmented := wcs.was_augmented, oriented := true }
    .ok (result_array, result_wcs, extra_arrs.map (fun arr => arr.transposeAx array_order))

/-- The embedded Cube: array data with its coordinate system and the optional
mask and uncertainty arrays, unit and metadata (spec section 3). -/
structure Cube where
  data : NDArray
  axes_wcs : WCSm
  mask : Option NDArray
  uncertainty : Option NDArray
  meta : String
  unit : String
  deriving DecidableEq

/-- Python range(start, stop, step) as a list of Ints.  A zero step raises
ValueError in Python; the callers in this file never produce one (reduce_dim
defaults an absent step to 1), and it is mapped to the empty list here. -/
def pyRange (start stop step : Int) : List Int :=
  if 0 < step then
    if stop ≤ start then []
    else (List.range ((stop - start + step - 1).tdiv step).toNat).map (fun k => start + k * step)
  else if step < 0 then
    if start ≤ stop then []
    else (List.range ((start - stop - step - 1).tdiv (-step)).toNat).map (fun k => start + k * step)
  else []

/-- cube_utils.reduce_dim: clamps a negative start to 0 and an overlarge stop
to the axis extent, takes the selected indices along the axis from the data,
mask and uncertainty arrays, and slices the (deep-copied) coordinate system
over that axis with all preceding axes kept full-range. -/
def reduce_dim (cube : Cube) (axis : Nat) (keys : PySlice) : Cube :=
  let extent : Int := (cube.data.shape.getD axis 0 : Int)
  let start0 : Int := keys.start.getD 0
  let stop0 : Int := keys.stop.getD extent
  let stop1 : Int := if extent < stop0 then extent else stop0
  let start1 : Int := if start0 < 0 then 0 else start0
  let step : Int := keys.step.getD 1
  let indices := pyRange start1 stop1 step
  let newdata := cube.data.takeAx indices axis
  let wcs_slice_data := ((List.range axis).map (fun i =>
      PySlice.mk (some 0) (some (cube.data.shape.getD i 0 : Int)) none)) ++
    [PySlice.mk (some start1) (some stop1) none]
  let newwcs := cube.axes_wcs.deepcopyW.sliceW wcs_slice_data
  { data := newdata, axes_wcs := newwcs,
    mask := cube.mask.map (fun m => m.takeAx indices axis),
    uncertainty := cube.uncertainty.map (fun e => e.takeAx indices axis),
    meta := cube.meta, unit := cube.unit }

/-- The sort key built by select_order always carries the tag itself in its
second component. -/
theorem ax_priority_snd (axtypes : List String) (t : String) :
    (ax_priority axtypes t).2 = t := by
  unfold ax_priority
  split_ifs <;> rfl

/-- Mapping each element of a duplicate-free list to its first index yields
exactly the list of positions. -/
theorem map_indexOf_eq_range (l : List String) (h : l.Nodup) :
    l.map (fun t => List.indexOf t l) = List.range l.length := by
  apply List.ext_getElem
  · simp
  · intro i h1 h2
    simp only [List.getElem_map, List.getElem_range]
    exact List.indexOf_getElem h i (by simpa using h2)

/-- C3 (amended): for every list of axis types whose entries are pairwise
distinct, select_order returns a bijection on range(len(axistypes)) (a
permutation of the position list). -/
theorem select_order_bijection (axtypes : List String) (h : axtypes.Nodup) :
    (select_order axtypes).Perm (List.range axtypes.length) := by
  unfold select_order
  have h1 := (List.perm_insertionSort (fun a b => pairLeB a b = true)
    (axtypes.map (ax_priority axtypes))).map
    (fun s : Nat × String => List.indexOf s.2 axtypes)
  rw [List.map_map] at h1
  have h3 : axtypes.map
      ((fun s : Nat × String => List.indexOf s.2 axtypes) ∘ ax_priority axtypes) =
      List.range axtypes.length := by
    have : ((fun s : Nat × String => List.indexOf s.2 axtypes) ∘ ax_priority axtypes) =
        fun t => List.indexOf t axtypes := by
      funext t
      simp [Function.comp, ax_priority_snd]
    rw [this]
    exact map_indexOf_eq_range axtypes h
  exact h3 ▸ h1

/-- C3 witness: a concrete duplicate-free axis-type list on which
select_order is a permutation of range 3. -/
theorem select_order_bijection_witness :
    (["TIME", "WAVE", "HPLT-TAN"] : List String).Nodup ∧
    (select_order ["TIME", "WAVE", "HPLT-TAN"]).Perm (List.range 3) :=
  ⟨by decide, select_order_bijection ["TIME", "WAVE", "HPLT-TAN"] (by decide)⟩

/-- C3 counterexample: a list with duplicate spatial tags (and no TIME or WAVE
duplicates, so it satisfies the claim precondition) on which select_order
returns [0, 0], which is not a bijection on range 2. -/
theorem select_order_dup_spatial_not_bijection :
    (["HPLN-TAN", "HPLN-TAN"] : List String).count "TIME" ≤ 1 ∧
    (["HPLN-TAN", "HPLN-TAN"] : List String).count "WAVE" ≤ 1 ∧
    select_order ["HPLN-TAN", "HPLN-TAN"] = [0, 0] ∧
    ¬ (select_order ["HPLN-TAN", "HPLN-TAN"]).Perm (List.range 2) := by
  refine ⟨by decide, by decide, by decide, by decide⟩

/-- C1 counterexample: for a rank-3 cube with WCS axis types
['WAVE','HPLT-TAN','HPLN-TAN'] (axis 1 not WAVE), the index
(5, slice(None), slice(None)) is classified as map-producing by getitem_3d,
not spectrum-producing, so handle_slice_to_spectrum is not invoked. -/
theorem getitem_3d_wave_first_is_map :
    getitem_3d_dispatch ["WAVE", "HPLT-TAN", "HPLN-TAN"]
      (.tup [.pint 5, .pslc ⟨none, none, none⟩, .pslc ⟨none, none, none⟩]) = .toMap ∧
    getitem_3d_dispatch ["WAVE", "HPLT-TAN", "HPLN-TAN"]
      (.tup [.pint 5, .pslc ⟨none, none, none⟩, .pslc ⟨none, none, none⟩]) ≠ .toSpectrum := by
  exact ⟨rfl, by decide⟩

/-- C1 (amended): for a rank-3 cube whose WCS axis type at position 1 is
WAVE, indexing with (n, slice(None), slice(None)) classifies as
spectrum-producing, and handle_slice_to_spectrum passes positions
(item[0], None) to the spectrum constructor. -/
theorem getitem_3d_wave_axis1_spectrum (a0 a2 : String) (n : Int) :
    getitem_3d_dispatch [a0, "WAVE", a2]
      (.tup [.pint n, .pslc ⟨none, none, none⟩, .pslc ⟨none, none, none⟩]) = .toSpectrum ∧
    handle_slice_to_spectrum_args 3
      (.tup [.pint n, .pslc ⟨none, none, none⟩, .pslc ⟨none, none, none⟩]) =
      some [some (.pint n), none] :=
  ⟨rfl, rfl⟩

/-- catMap of a constantly-empty function is empty. -/
theorem catMap_nil_fun (l : List α) : catMap l (fun _ => ([] : List β)) = [] := by
  induction l with
  | nil => rfl
  | cons a t ih => simp [catMap] at ih ⊢

/-- C9: orient is idempotent: whenever orient accepts an array/WCS pair (and
auxiliary arrays), applying orient to its result returns exactly the same
triple, because the result carries oriented = true and the second call
short-circuits on that flag. -/
theorem orient_idempotent (a : NDArray) (w : WCSm) (ex : List NDArray)
    (r : NDArray × WCSm × List NDArray) (h : orient a w ex = .ok r) :
    orient r.1 r.2.1 r.2.2 = .ok r := by
  unfold orient at h ⊢
  split at h
  next hw =>
    injection h with h
    subst h
    simp [hw]
  next hw =>
    split at h
    next => exact absurd h (by simp)
    next =>
      split at h
      next => exact absurd h (by simp)
      next =>
        injection h with h
        subst h
        simp

/-- Concrete 3-d array used by the orient idempotence witness. -/
def arrW : NDArray := { shape := [1, 1, 1], data := [7] }

/-- Concrete unoriented rank-3 WCS used by the orient idempotence witness. -/
def wcsW : WCSm :=
  { naxis := 3, ctype := ["TIME", "WAVE", "HPLT-TAN"], cunit := ["s", "m", "deg"],
    crpix := [0, 0, 0], crval := [0, 0, 0], cdelt := [1, 1, 1],
    oriented := false, was_augmented := false }

/-- The value orient produces on the witness inputs. -/
def resW : NDArray × WCSm × List NDArray :=
  ({ shape := [1, 1, 1], data := [7] }, { wcsW with oriented := true }, [])

/-- C9 witness: a concrete successful orient call, on whose result the
idempotence theorem applies. -/
theorem orient_idempotent_witness :
    orient arrW wcsW [] = .ok resW ∧ orient resW.1 resW.2.1 resW.2.2 = .ok resW :=
  ⟨by rfl, orient_idempotent arrW wcsW [] resW (by rfl)⟩

/-- C10: reduce_dim passes a negative stop through unclamped (only a negative
start and an overlarge stop are clamped), so slicing any cube along any
in-range axis with slice(0, s) for negative s selects an empty range: the
resulting data has extent 0 along that axis and no elements, instead of
counting from the end as array-indexing conventions would. -/
theorem reduce_dim_negative_stop_empty (c : Cube) (axis : Nat) (s : Int)
    (hax : axis < c.data.shape.length) (hs : s < 0) :
    (reduce_dim c axis ⟨some 0, some s, none⟩).data.shape.getD axis 0 = 0 ∧
    (reduce_dim c axis ⟨some 0, some s, none⟩).data.data = [] := by
  have hext : ¬ ((c.data.shape.getD axis 0 : Int) < s) := by
    have h0 : (0 : Int) ≤ (c.data.shape.getD axis 0 : Int) := Int.ofNat_nonneg _
    omega
  have hrange : pyRange 0 s 1 = [] := by
    unfold pyRange
    simp [hs.le]
  simp only [reduce_dim, NDArray.takeAx, Option.getD_some, Option.getD_none,
    if_neg hext, if_neg (lt_irrefl (0 : Int)), hrange]
  constructor
  · rw [List.getD_eq_getElem _ _ (by simpa [List.length_set] using hax)]
    simp [List.getElem_set_self]
  · simp [catMap, catMap_nil_fun]

/-- Concrete cube used by the reduce_dim negative-stop witness. -/
def cubeW : Cube :=
  { data := { shape := [1, 2, 1], data := [5, 6] }, axes_wcs := wcsW,
    mask := none, uncertainty := none, meta := "", unit := "" }

/-- C10 witness: slicing the concrete cube along axis 1 with slice(0, -1)
yields a length-0 axis and empty data. -/
theorem reduce_dim_negative_stop_empty_witness :
    1 < cubeW.data.shape.length ∧ (-1 : Int) < 0 ∧
    ((reduce_dim cubeW 1 ⟨some 0, some (-1), none⟩).data.shape.getD 1 0 = 0 ∧
     (reduce_dim cubeW 1 ⟨some 0, some (-1), none⟩).data.data = []) :=
  ⟨by decide, by decide, reduce_dim_negative_stop_empty cubeW 1 (-1) (by decide) (by decide)⟩

/-- A value stored in a FITS-like coordinate header. -/
inductive HVal where
  | hstr (s : String)
  | hint (n : Int)
  deriving DecidableEq

/-- A coordinate header: a keyword-to-value mapping (spec section 6),
represented as an association list in insertion order. -/
abbrev Header := List (String × HVal)

/-- dict lookup. -/
def hget (h : Header) (k : String) : Option HVal :=
  (h.find? (fun p => p.1 == k)).map Prod.snd

/-- header.get(key, default) for integer-valued keywords. -/
def hgetInt (h : Header) (k : String) (d : Int) : Int :=
  match hget h k with
  | some (.hint n) => n
  | _ => d

/-- dict item assignment: replaces the existing binding or appends a new
one. -/
def hset (h : Header) (k : String) (v : HVal) : Header :=
  if h.any (fun p => p.1 == k) then h.map (fun p => if p.1 == k then (k, v) else p)
  else h ++ [(k, v)]

/-- Python 2 max where a None operand is smaller than every int (the naxis
argument of _augment may be None). -/
def pymax (a : Int) (b : Option Int) : Int :=
  match b with
  | none => a
  | some n => max a n

/-- The fixed defaults _augment appends for the synthetic axis
(wcs_util.WCS._augment, new_wcs_axes_params); the keys are distinct, so the
Python dict iteration order does not affect the resulting header mapping. -/
def new_wcs_axes_params : List (String × HVal) :=
  [("CRPIX", .hint 0), ("CDELT", .hint 1), ("CRVAL", .hint 0),
   ("CNAME", .hstr "redundant axis"), ("CTYPE", .hstr "HPLN-TAN"),
   ("CROTA", .hint 0), ("CUNIT", .hstr "deg")]

/-- wcs_util.WCS._augment, with the external astropy resolution check passed
in as a function (some tag = resolution fails naming the expected orthogonal
type, none = the header resolves).  The Python function deep-copies the
header, appends the synthetic-axis keywords to the copy, and, when the copy
still fails to resolve, writes the corrected CTYPE into its original header
argument while returning the copy; that mutation is made explicit here by
returning the pair (returned header, final state of the input header). -/
def augment (resolve : Header → Option String) (header : Header) (naxis : Option Int) :
    Header × Header :=
  let axis := toString (pymax (hgetInt header "NAXIS" 0) naxis + 1)
  let newheader := new_wcs_axes_params.foldl (fun h p => hset h (p.1 ++ axis) p.2) header
  match resolve newheader with
  | some projection => (newheader, hset header ("CTYPE" ++ axis) (.hstr projection))
  | none => (newheader, header)

/-- Keyword-prefix test on the character lists (semantically the string
startswith used to group CTYPE keywords). -/
def strStarts (s pre : String) : Bool := pre.data.isPrefixOf s.data

/-- Modelled from the spec: the external astropy axis-type resolution
(wcs.WCS(header).get_axis_types()) is not part of this repository; per spec
sections 4.1 and 9 it fails when the celestial axes are unmatched (here:
when the counts of HPLN-TAN and HPLT-TAN CTYPE entries differ) and its
failure message names the expected orthogonal spatial tag. -/
def specResolve (h : Header) : Option String :=
  let lon := (h.filter (fun p => strStarts p.1 "CTYPE" && p.2 == HVal.hstr "HPLN-TAN")).length
  let lat := (h.filter (fun p => strStarts p.1 "CTYPE" && p.2 == HVal.hstr "HPLT-TAN")).length
  if lon = lat then none
  else if lat < lon then some "HPLT-TAN"
  else some "HPLN-TAN"

/-- wcs_util.WCS._needs_augmenting: plain construction is attempted and an
unmatched-celestial-axes failure reports true. -/
def needs_augmenting (resolve : Header → Option String) (header : Header) : Bool :=
  (resolve header).isSome

/-- The observable outcome of wcs_util.WCS.__init__: the flags it sets and
the header/naxis it hands to the external astropy constructor. -/
structure WCSInitOut where
  was_augmented : Bool
  header : Header
  naxis : Option Int
  deriving DecidableEq

/-- wcs_util.WCS.__init__: augments the header when needed (bumping naxis)
and hands it to the external astropy constructor, which raises when the
header still fails to resolve.  Returns the constructed flags/header
together with the final state of the header argument (making the mutation
performed by _augment explicit). -/
def wcsInit (resolve : Header → Option String) (header : Header) (naxis : Option Int) :
    Except PyErr (WCSInitOut × Header) :=
  if needs_augmenting resolve header then
    let pair := augment resolve header naxis
    let naxis2 := naxis.map (· + 1)
    if (resolve pair.1).isSome then .error .wcsResolveError
    else .ok ({ was_augmented := true, header := pair.1, naxis := naxis2 }, pair.2)
  else .ok ({ was_augmented := false, header := header, naxis := naxis }, header)

/-- A header with two identical celestial axes, on which the appended
HPLN-TAN synthetic axis still fails to resolve: the failing input for the
augmentation claims. -/
def hdrDup : Header :=
  [("NAXIS", .hint 2), ("CTYPE1", .hstr "HPLN-TAN"), ("CTYPE2", .hstr "HPLN-TAN")]

/-- C2: on a header whose augmented copy still fails to resolve, _augment
leaves the synthetic axis of the header it returns typed HPLN-TAN (the
corrected CTYPE is written into the input header instead), so the returned
header still fails to resolve and the subsequent construction raises rather
than producing a CoordinateSystem with was_augmented = true. -/
theorem augment_rewrites_wrong_header :
    hget (augment specResolve hdrDup (some 2)).1 "CTYPE3" = some (.hstr "HPLN-TAN") ∧
    specResolve (augment specResolve hdrDup (some 2)).1 = some "HPLT-TAN" ∧
    hget (augment specResolve hdrDup (some 2)).2 "CTYPE3" = some (.hstr "HPLT-TAN") ∧
    wcsInit specResolve hdrDup (some 2) = .error .wcsResolveError := by
  refine ⟨by decide, by decide, by decide, by decide⟩

/-- C7: the augmentation routine mutates its header argument: on a header
whose augmented copy still fails to resolve, the final state of the input
header differs from its initial state (the corrected CTYPE keyword for the
synthetic axis has been written into it). -/
theorem augment_mutates_input_header :
    (augment specResolve hdrDup (some 2)).2 ≠ hdrDup ∧
    hget hdrDup "CTYPE3" = none ∧
    hget (augment specResolve hdrDup (some 2)).2 "CTYPE3" = some (.hstr "HPLT-TAN") := by
  refine ⟨by decide, by decide, by decide⟩

/-- Python/numpy sequence indexing with negative-index wraparound; none
models IndexError. -/
def pyGet (l : List α) (i : Int) : Option α :=
  if 0 ≤ i then l[i.toNat]?
  else if (-i).toNat ≤ l.length then l[l.length - (-i).toNat]?
  else none

/-- numpy cumsum: entry i is the sum of the first i+1 inputs. -/
def npCumsum (l : List Int) : List Int :=
  (List.range l.length).map (fun i => (l.take (i + 1)).sum)

/-- cube_utils._convert_cube_like_index_to_sequence_indices: locates the cube
holding a cube-like (virtual concatenated) index and the local index within
it.  An index below the first cumulative length maps into cube 0 directly;
otherwise the rightmost cube whose cumulative length is at or below the
index is found and advanced by one position when not already last, and an
index at or beyond the final cumulative length clamps the local index to the
first cube's last position.  Errors model numpy IndexError on the empty
accesses. -/
def convert_cube_like_index_to_sequence_indices (cube_like_index : Int)
    (cumul_cube_lengths : List Int) : Except PyErr (Int × Int) :=
  match pyGet cumul_cube_lengths 0 with
  | none => .error .indexError
  | some c0 =>
    if cube_like_index < c0 then .ok (0, cube_like_index)
    else
      match ((List.range cumul_cube_lengths.length).filter
        (fun i => cumul_cube_lengths.getD i 0 ≤ cube_like_index)).getLast? with
      | none => .error .indexError
      | some si =>
        match pyGet cumul_cube_lengths (-1) with
        | none => .error .indexError
        | some clast =>
          let cube_index : Int := if clast - 1 < cube_like_index then c0 - 1
            else cube_like_index - cumul_cube_lengths.getD si 0
          let sequence_index : Int := if (si : Int) < (cumul_cube_lengths.length : Int) - 1
            then (si : Int) + 1 else (si : Int)
          .ok (sequence_index, cube_index)

/-- The local-slice component produced by the cube-like slice conversion:
either a single slice within one cube, or the list of explicit boundary
slices of a multi-cube span (the cubes strictly in between are taken in full
and get no explicit slice). -/
inductive CubePart where
  | one (s : PySlice)
  | parts (l : List PySlice)
  deriving DecidableEq

/-- cube_utils._convert_cube_like_slice_to_sequence_slices: resolves the
start (default 0) and stop (default the total length) through the index
conversion, moves a stop that is at or beyond the total length to the next
cube boundary, and produces the sequence slice together with the local
slice(s). -/
def convert_cube_like_slice_to_sequence_slices (cube_like_slice : PySlice)
    (cumul_cube_lengths : List Int) : Except PyErr (PySlice × CubePart) :=
  match (match cube_like_slice.start with
         | some st => convert_cube_like_index_to_sequence_indices st cumul_cube_lengths
         | none => convert_cube_like_index_to_sequence_indices 0 cumul_cube_lengths) with
  | .error e => .error e
  | .ok (sequence_start_index, cube_start_index) =>
    match (match cube_like_slice.stop with
           | some sp => convert_cube_like_index_to_sequence_indices sp cumul_cube_lengths
           | none =>
             match pyGet cumul_cube_lengths (-1) with
             | none => Except.error PyErr.indexError
             | some last => convert_cube_like_index_to_sequence_indices last cumul_cube_lengths) with
    | .error e => .error e
    | .ok (sequence_stop_index0, cube_stop_index0) =>
      match (match cube_like_slice.stop with
             | some sp =>
               match pyGet cumul_cube_lengths (-1) with
               | none => Except.error PyErr.indexError
               | some last =>
                 if ¬ (sp < last) then Except.ok (sequence_stop_index0 + 1, (0 : Int))
                 else Except.ok (sequence_stop_index0, cube_stop_index0)
             | none => Except.ok (sequence_stop_index0, cube_stop_index0)) with
      | .error e => .error e
      | .ok (sequence_stop_index, cube_stop_index) =>
        if sequence_start_index ≠ sequence_stop_index then
          match pyGet cumul_cube_lengths sequence_start_index with
          | none => .error .indexError
          | some cl =>
            let first := PySlice.mk (some cube_start_index) (some cl) cube_like_slice.step
            if cube_stop_index ≠ 0 then
              .ok (PySlice.mk (some sequence_start_index) (some (sequence_stop_index + 1))
                     cube_like_slice.step,
                   .parts [first, PySlice.mk (some 0) (some cube_stop_index)
                     cube_like_slice.step])
            else
              .ok (PySlice.mk (some sequence_start_index) (some sequence_stop_index)
                     cube_like_slice.step,
                   .parts [first])
        else
          .ok (PySlice.mk (some sequence_start_index) (some (sequence_stop_index + 1))
                 cube_like_slice.step,
               .one (PySlice.mk (some cube_start_index) (some cube_stop_index)
                 cube_like_slice.step))

/-- C5: for three cubes of extent 3 along the common axis (cumulative
lengths [3,6,9]), the global slice slice(2,7) converts to the sequence slice
slice(0,3) (cubes 0 through 2) with the local-slice list
[slice(2,3), slice(0,1)]: the tail of cube 0 and the head of cube 2, with
cube 1 taken in full implicitly (no explicit local slice for it). -/
theorem convert_slice_2_7_across_three_cubes :
    convert_cube_like_slice_to_sequence_slices ⟨some 2, some 7, none⟩ (npCumsum [3, 3, 3]) =
      .ok (⟨some 0, some 3, none⟩,
        .parts [⟨some 2, some 3, none⟩, ⟨some 0, some 1, none⟩]) := by
  decide

/-- The per-cube extents cast to the integer type used by the cumulative
lengths. -/
def natsToInts (l : List Nat) : List Int := l.map Int.ofNat

/-- C6: for every non-empty list of cube extents, the cube-like index
conversion applied to a global index at or beyond the final cumulative
length does not raise: it returns the last sequence position together with
the local index clamped to the first cube's last valid position (the first
cube's extent minus one). -/
theorem convert_index_out_of_range_clamps (lengths : List Nat) (idx : Int)
    (hne : lengths ≠ []) (hidx : (natsToInts lengths).sum ≤ idx) :
    convert_cube_like_index_to_sequence_indices idx (npCumsum (natsToInts lengths)) =
      .ok ((lengths.length : Int) - 1, (lengths.headD 0 : Int) - 1) := by
  obtain ⟨a, t, rfl⟩ := List.exists_cons_of_ne_nil hne
  set L : List Int := natsToInts (a :: t) with hLdef
  have hsum : L.sum ≤ idx := hidx
  have hLlen : L.length = t.length + 1 := by
    rw [hLdef, natsToInts, List.length_map, List.length_cons]
  have hcum : (npCumsum L).length = t.length + 1 := by simp [npCumsum, hLlen]
  have hnn : ∀ x ∈ L, (0 : Int) ≤ x := by
    intro x hx
    rw [hLdef, natsToInts] at hx
    obtain ⟨m, _, rfl⟩ := List.mem_map.1 hx
    exact Int.ofNat_nonneg m
  have htake : ∀ k, (L.take k).sum ≤ L.sum := by
    intro k
    conv_rhs => rw [← List.take_append_drop k L]
    rw [List.sum_append]
    have h0 : (0 : Int) ≤ (L.drop k).sum :=
      List.sum_nonneg (fun x hx => hnn x (List.mem_of_mem_drop hx))
    omega
  have hgetel : ∀ i, (h : i < (npCumsum L).length) →
      (npCumsum L)[i] = (L.take (i + 1)).sum := by
    intro i h
    simp [npCumsum]
  have hc0 : pyGet (npCumsum L) 0 = some ((L.take 1).sum) := by
    rw [pyGet, if_pos (le_refl (0 : Int))]
    rw [List.getElem?_eq_getElem (by omega : (0 : Int).toNat < (npCumsum L).length)]
    exact congrArg some (hgetel 0 (by omega))
  have hcn : pyGet (npCumsum L) (-1) = some L.sum := by
    rw [pyGet, if_neg (by omega : ¬ (0 : Int) ≤ -1)]
    rw [if_pos (by simp [hcum] : (-(-1 : Int)).toNat ≤ (npCumsum L).length)]
    have hix : (npCumsum L).length - (-(-1 : Int)).toNat = t.length := by
      simp [hcum]
    rw [hix, List.getElem?_eq_getElem (by omega : t.length < (npCumsum L).length)]
    refine congrArg some ?_
    rw [hgetel t.length (by omega)]
    rw [show t.length + 1 = L.length by omega, List.take_length]
  have hfilter : ((List.range (npCumsum L).length).filter
      (fun i => decide ((npCumsum L).getD i 0 ≤ idx))) =
      List.range (npCumsum L).length := by
    apply List.filter_eq_self.2
    intro i hi
    rw [List.mem_range] at hi
    have h1 : (npCumsum L).getD i 0 = (L.take (i + 1)).sum := by
      rw [List.getD_eq_getElem _ _ hi]
      exact hgetel i hi
    rw [h1]
    exact decide_eq_true (le_trans (htake (i + 1)) hsum)
  have hlast : ((List.range (npCumsum L).length).filter
      (fun i => decide ((npCumsum L).getD i 0 ≤ idx))).getLast? = some t.length := by
    rw [hfilter, hcum, List.range_succ, List.getLast?_concat]
  have hone : (L.take 1).sum = (a : Int) := by
    rw [hLdef, natsToInts]
    simp
  unfold convert_cube_like_index_to_sequence_indices
  simp only [hc0, hlast, hcn]
  rw [if_neg (by have := htake 1; omega : ¬ idx < (L.take 1).sum)]
  rw [if_pos (by omega : L.sum - 1 < idx)]
  rw [if_neg (by rw [hcum]; push_cast; omega :
    ¬ ((t.length : Int) < ((npCumsum L).length : Int) - 1))]
  rw [hone]
  simp

/-- C6 witness: extents [3,3,3] with global index 9 (the total length) do
not raise and clamp to sequence position 2, local index 2. -/
theorem convert_index_out_of_range_clamps_witness :
    ([3, 3, 3] : List Nat) ≠ [] ∧
    ((natsToInts [3, 3, 3]).sum ≤ 9) ∧
    convert_cube_like_index_to_sequence_indices 9 (npCumsum (natsToInts [3, 3, 3])) =
      .ok ((([3, 3, 3] : List Nat).length : Int) - 1,
           ((([3, 3, 3] : List Nat).headD 0) : Int) - 1) ∧
    convert_cube_like_index_to_sequence_indices 9 (npCumsum (natsToInts [3, 3, 3])) =
      .ok (2, 2) :=
  ⟨by decide, by decide,
    convert_index_out_of_range_clamps [3, 3, 3] 9 (by decide) (by decide),
    by decide⟩

/-- Physical units occurring in the embedded slicing code: degrees,
arcseconds, the dimensionless pixel unit, and a catch-all for other unit
strings. -/
inductive AUnit where
  | deg
  | arcsec
  | pix
  | uother (s : String)
  deriving DecidableEq

/-- Modelled from the spec: conversion between compatible units by the
external unit library (spec section 6); degrees and arcseconds are
convertible with factor 3600, and any unit converts to itself. -/
def convTo (v : ℚ) (u target : AUnit) : Option ℚ :=
  if u = target then some v
  else
    match u, target with
    | .deg, .arcsec => some (v * 3600)
    | .arcsec, .deg => some (v / 3600)
    | _, _ => none

/-- u.Unit(string) for the unit strings stored in cunit. -/
def parseUnit (s : String) : AUnit :=
  if s = "deg" then .deg
  else if s = "arcsec" then .arcsec
  else if s = "pix" || s = "pixel" then .pix
  else .uother s

/-- Python int() applied to a rational: truncation toward zero. -/
def pyInt (q : ℚ) : Int := q.num.tdiv (q.den : Int)

/-- numpy round: round half to even. -/
def np_round (q : ℚ) : Int :=
  let f := Int.floor q
  let frac := q - (f : ℚ)
  if frac < 1 / 2 then f
  else if 1 / 2 < frac then f + 1
  else if f % 2 = 0 then f else f + 1

/-- One slice component before pixel conversion: absent (None), a plain
number, or a quantity carrying a unit. -/
inductive SVal where
  | pynone
  | num (q : ℚ)
  | qty (v : ℚ) (u : AUnit)
  deriving DecidableEq

/-- A Python slice whose components may carry units, as passed to
_convert_slice. -/
structure QSlice where
  start : SVal
  stop : SVal
  step : SVal
  deriving DecidableEq

/-- The wcs-order axis index used by convert_point and _convert_slice: the
numpy axis in reversed WCS order, shifted once more on an augmented system,
or the non-cube source variant. -/
def cube_wcs_axis (wcs : WCSm) (axis : Nat) (source_cube : Bool) : Int :=
  if source_cube then
    (if wcs.was_augmented then -2 - (axis : Int) else -1 - (axis : Int))
  else 1 - (axis : Int)

/-- cube_utils.convert_point: translates a physical value on an axis into
the pixel coordinate via pixel = crpix + (value - crval) / cdelt after unit
conversion (crval and cdelt are expressed in the axis cunit, so the
arithmetic is carried out in that unit); a None value passes through, and a
pixel (or absent) unit short-circuits to an integer cast.  The wcs axis is
addressed in reverse order, shifted once more on an augmented system.
Errors model the Python exceptions of the external lookups and conversions
(a zero cdelt, a float division in Python, is outside the claims and maps
to the rational convention of division by zero). -/
def convert_point (value : Option ℚ) (unitOf : Option AUnit) (wcs : WCSm) (axis : Nat)
    (source_cube : Bool) : Except PyErr (Option Int) :=
  match value with
  | none => .ok none
  | some v =>
    match unitOf with
    | none => .ok (some (pyInt v))
    | some u =>
      if u = .pix then .ok (some (pyInt v))
      else
        match pyGet wcs.cunit (cube_wcs_axis wcs axis source_cube),
              pyGet wcs.crpix (cube_wcs_axis wcs axis source_cube),
              pyGet wcs.crval (cube_wcs_axis wcs axis source_cube),
              pyGet wcs.cdelt (cube_wcs_axis wcs axis source_cube) with
        | some cunitStr, some crpix, some crval, some cdelt =>
          match convTo v u (parseUnit cunitStr) with
          | none => .error .unitConvError
          | some point => .ok (some (np_round (crpix + (point - crval) / cdelt)))
        | _, _, _, _ => .error .indexError

/-- Result of _convert_slice: either the original slice returned unchanged
(no units present) or a converted pixel slice. -/
inductive ConvOut where
  | same (s : QSlice)
  | pix (s : PySlice)
  deriving DecidableEq

/-- One iteration of the unit-collection loop in _convert_slice: checks the
component's unit against the one seen so far, raising CubeError code 5 on a
mismatch, and records the numeric value of the component. -/
def sliceStepUnit (unitOf : Option AUnit) (s : SVal) : Except PyErr (Option AUnit × Option ℚ) :=
  match s with
  | .qty v u =>
    match unitOf with
    | some u0 =>
      if u ≠ u0 then .error (.cubeError 5 "Only one unit per axis may be given")
      else .ok (some u, some v)
    | none => .ok (some u, some v)
  | .num q => .ok (unitOf, some q)
  | .pynone => .ok (unitOf, none)

/-- cube_utils._convert_slice: collects the units of start/stop/step (a
second, different unit raises CubeError code 5), returns the slice
unchanged when no unit is present, and otherwise converts the step through
the axis delta and the bounds through convert_point. -/
def convert_slice (item : QSlice) (wcs : WCSm) (axis : Nat) (source_cube : Bool) :
    Except PyErr ConvOut :=
  match sliceStepUnit none item.start with
  | .error e => .error e
  | .ok (u1, v0) =>
    match sliceStepUnit u1 item.stop with
    | .error e => .error e
    | .ok (u2, v1) =>
      match sliceStepUnit u2 item.step with
      | .error e => .error e
      | .ok (u3, v2) =>
        match u3 with
        | none => .ok (.same item)
        | some unitQ =>
          match (match v2 with
                 | none => Except.ok (none : Option Int)
                 | some q =>
                   match pyGet wcs.cunit (cube_wcs_axis wcs axis source_cube),
                         pyGet wcs.cdelt (cube_wcs_axis wcs axis source_cube) with
                   | some cunitStr, some cdelt =>
                     match convTo q unitQ (parseUnit cunitStr) with
                     | none => Except.error PyErr.unitConvError
                     | some qc => Except.ok (some (np_round (qc / cdelt)))
                   | _, _ => Except.error PyErr.indexError) with
          | .error e => .error e
          | .ok delta =>
            match convert_point v0 (some unitQ) wcs axis source_cube with
            | .error e => .error e
            | .ok start1 =>
              match convert_point v1 (some unitQ) wcs axis source_cube with
              | .error e => .error e
              | .ok end1 => .ok (.pix ⟨start1, end1, delta⟩)

/-- C8: a slice whose start is in degrees and whose stop is in arcseconds
raises the slicing-unit CubeError with code 5 when converted to pixels, for
every WCS, axis, source kind, magnitudes and step component, even though
degrees and arcseconds are physically convertible units (factor 3600). -/
theorem convert_slice_mixed_units_code5 (w : WCSm) (axis : Nat) (sc : Bool)
    (v1 v2 : ℚ) (st : SVal) :
    convert_slice ⟨.qty v1 .deg, .qty v2 .arcsec, st⟩ w axis sc =
      .error (.cubeError 5 "Only one unit per axis may be given") ∧
    convTo 1 .deg .arcsec = some 3600 := by
  refine ⟨rfl, ?_⟩
  rw [convTo, if_neg (by intro h; exact AUnit.noConfusion h)]
  norm_num

/-- One component of the final whole-sequence index tuple built by
index_sequence_as_cube. -/
inductive SeqElem where
  | sint (n : Int)
  | sslc (s : PySlice)
  | sparts (l : List PySlice)
  | sother (tag : String)
  deriving DecidableEq

/-- A getitem component carried unchanged into the whole-sequence tuple. -/
def PItem.toSeqElem : PItem → SeqElem
  | .pint n => .sint n
  | .pslc s => .sslc s
  | .pother t => .sother t

/-- The converted common-axis component as a tuple element. -/
def CubePart.toSeqElem : CubePart → SeqElem
  | .one s => .sslc s
  | .parts l => .sparts l

/-- cube_utils.index_sequence_as_cube up to the final external indexing
call: validates the item against the common axis, converts the common-axis
component to (sequence index, per-cube index), and builds the
whole-sequence index tuple that is handed to ordinary sequence indexing
(which is external, spec section 6).  lengths are the per-cube extents
along the common axis (the source computes them from the cubes) and rank is
the rank of a single cube, used only in an error message.  A tuple too
short to reach the common axis fails on the item subscript (IndexError)
before the length check, and a non-int non-slice component raises the final
ValueError; a bare non-int non-slice item fails on the subscript with
TypeError. -/
def index_sequence_as_cube (common_axis : Nat) (lengths : List Int) (rank : Nat)
    (item : Item) : Except PyErr (List SeqElem) :=
  let cumul := npCumsum lengths
  match item with
  | .single (.pint n) =>
    if common_axis ≠ 0 then
      .error (.valueError ("Input can only be indexed with an int if CubeSequence\x27s common axis is 0. common axis = " ++ toString common_axis))
    else
      match convert_cube_like_index_to_sequence_indices n cumul with
      | .error e => .error e
      | .ok (si, ci) => .ok [.sint si, .sint ci]
  | .single (.pslc s) =>
    if common_axis ≠ 0 then
      .error (.valueError ("Input can only be sliced with a single slice if CubeSequence\x27s common axis is 0. common axis = " ++ toString common_axis))
    else
      match convert_cube_like_slice_to_sequence_slices s cumul with
      | .error e => .error e
      | .ok (ss, cs) => .ok [.sslc ss, cs.toSeqElem]
  | .single (.pother _) => .error .typeError
  | .tup es =>
    match es.get? common_axis with
    | none => .error .indexError
    | some (.pint n) =>
      if es.length < common_axis then
        .error (.valueError ("Input item not long enough to include common axis.Must have length of of between " ++ toString common_axis ++ " and " ++ toString rank ++ " inclusive."))
      else
        match convert_cube_like_index_to_sequence_indices n cumul with
        | .error e => .error e
        | .ok (si, ci) =>
          .ok (.sint si :: (es.map PItem.toSeqElem).set common_axis (.sint ci))
    | some (.pslc s) =>
      if es.length < common_axis then
        .error (.valueError ("Input item not long enough to include common axis.Must have length of of between " ++ toString common_axis ++ " and " ++ toString rank ++ " inclusive."))
      else
        match convert_cube_like_slice_to_sequence_slices s cumul with
        | .error e => .error e
        | .ok (ss, cs) =>
          .ok (.sslc ss :: (es.map PItem.toSeqElem).set common_axis cs.toSeqElem)
    | some (.pother _) => .error (.valueError "Invalid index/slice input.")

/-- True unless the result is an error of the repository CubeError kind. -/
def errNotCube : Except PyErr α → Bool
  | .error e => !e.isCubeErr
  | .ok _ => true

/-- True unless the result is an error other than a Python ValueError. -/
def errOnlyValueErr : Except PyErr α → Bool
  | .error e => e.isValueErr
  | .ok _ => true

/-- True unless the result is a CubeError whose code differs from 5. -/
def cubeErrOnlyCode5 : Except PyErr α → Bool
  | .error (.cubeError c _) => c == 5
  | _ => true

/-- A CubeError-free error satisfies the code-5-only predicate. -/
theorem cubeErrOnlyCode5_of_not_cube (e : PyErr) (h : e.isCubeErr = false) :
    cubeErrOnlyCode5 (Except.error e : Except PyErr α) = true := by
  cases e <;> simp_all [PyErr.isCubeErr, cubeErrOnlyCode5]

/-- Every error raised by the unit-collection loop is the code-5
CubeError. -/
theorem sliceStepUnit_error_eq (u : Option AUnit) (s : SVal) (e : PyErr)
    (h : sliceStepUnit u s = .error e) :
    e = .cubeError 5 "Only one unit per axis may be given" := by
  cases s with
  | pynone => exact Except.noConfusion h
  | num q => exact Except.noConfusion h
  | qty v uu =>
    cases u with
    | none => exact Except.noConfusion h
    | some u0 =>
      rw [sliceStepUnit] at h
      split at h
      · injection h with h2
        exact h2.symm
      · exact Except.noConfusion h

/-- convert_point never raises the repository CubeError kind. -/
theorem convert_point_error_not_cube (v : Option ℚ) (u : Option AUnit) (w : WCSm)
    (ax : Nat) (sc : Bool) (e : PyErr)
    (h : convert_point v u w ax sc = .error e) : e.isCubeErr = false := by
  cases v with
  | none =>
    rw [show convert_point none u w ax sc = Except.ok none from rfl] at h
    exact Except.noConfusion h
  | some q =>
    cases u with
    | none =>
      rw [show convert_point (some q) none w ax sc = Except.ok (some (pyInt q)) from rfl] at h
      exact Except.noConfusion h
    | some uu =>
      rw [show convert_point (some q) (some uu) w ax sc =
          (if uu = AUnit.pix then Except.ok (some (pyInt q))
           else
             match pyGet w.cunit (cube_wcs_axis w ax sc), pyGet w.crpix (cube_wcs_axis w ax sc),
                   pyGet w.crval (cube_wcs_axis w ax sc), pyGet w.cdelt (cube_wcs_axis w ax sc) with
             | some cunitStr, some crpix, some crval, some cdelt =>
               match convTo q uu (parseUnit cunitStr) with
               | none => Except.error PyErr.unitConvError
               | some point => Except.ok (some (np_round (crpix + (point - crval) / cdelt)))
             | _, _, _, _ => Except.error PyErr.indexError) from rfl] at h
      by_cases hp : uu = AUnit.pix
      · rw [if_pos hp] at h
        exact Except.noConfusion h
      · rw [if_neg hp] at h
        rcases h1 : pyGet w.cunit (cube_wcs_axis w ax sc) with _ | cu
        · simp only [h1] at h
          injection h with h2
          rw [← h2]; rfl
        · simp only [h1] at h
          rcases h2 : pyGet w.crpix (cube_wcs_axis w ax sc) with _ | cp
          · simp only [h2] at h
            injection h with h2x
            rw [← h2x]; rfl
          · simp only [h2] at h
            rcases h3 : pyGet w.crval (cube_wcs_axis w ax sc) with _ | cv
            · simp only [h3] at h
              injection h with h2x
              rw [← h2x]; rfl
            · simp only [h3] at h
              rcases h4 : pyGet w.cdelt (cube_wcs_axis w ax sc) with _ | cd
              · simp only [h4] at h
                injection h with h2x
                rw [← h2x]; rfl
              · simp only [h4] at h
                rcases h5 : convTo q uu (parseUnit cu) with _ | pv
                · simp only [h5] at h
                  injection h with h2x
                  rw [← h2x]; rfl
                · simp only [h5] at h
                  exact Except.noConfusion h

/-- Every CubeError raised by the slice-to-pixel conversion carries code 5
(the other failure paths are external lookup/conversion errors). -/
theorem convert_slice_cube_errors_code5 (it : QSlice) (w : WCSm) (ax : Nat) (sc : Bool) :
    cubeErrOnlyCode5 (convert_slice it w ax sc) = true := by
  unfold convert_slice
  rcases h1 : sliceStepUnit none it.start with e1 | ⟨u1, v0⟩
  · simp only [h1, sliceStepUnit_error_eq _ _ _ h1]
    rfl
  · simp only [h1]
    rcases h2 : sliceStepUnit u1 it.stop with e2 | ⟨u2, v1⟩
    · simp only [h2, sliceStepUnit_error_eq _ _ _ h2]
      rfl
    · simp only [h2]
      rcases h3 : sliceStepUnit u2 it.step with e3 | ⟨u3, v2⟩
      · simp only [h3, sliceStepUnit_error_eq _ _ _ h3]
        rfl
      · simp only [h3]
        cases u3 with
        | none => rfl
        | some unitQ =>
          have hpoints : ∀ (d : Option Int),
              cubeErrOnlyCode5
                (match convert_point v0 (some unitQ) w ax sc with
                 | .error e => Except.error e
                 | .ok start1 =>
                   match convert_point v1 (some unitQ) w ax sc with
                   | .error e => Except.error e
                   | .ok end1 =>
                     Except.ok (ConvOut.pix ⟨start1, end1, d⟩)) = true := by
            intro d
            rcases h4 : convert_point v0 (some unitQ) w ax sc with e4 | s4
            · simp only [h4]
              exact cubeErrOnlyCode5_of_not_cube e4
                (convert_point_error_not_cube _ _ _ _ _ _ h4)
            · simp only [h4]
              rcases h5 : convert_point v1 (some unitQ) w ax sc with e5 | s5
              · simp only [h5]
                exact cubeErrOnlyCode5_of_not_cube e5
                  (convert_point_error_not_cube _ _ _ _ _ _ h5)
              · simp only [h5]
                rfl
          cases v2 with
          | none => exact hpoints none
          | some q =>
            rcases h6 : pyGet w.cunit (cube_wcs_axis w ax sc) with _ | cu
            · simp only [h6]
              rfl
            · simp only [h6]
              rcases h7 : pyGet w.cdelt (cube_wcs_axis w ax sc) with _ | cd
              · simp only [h7]
                rfl
              · simp only [h7]
                rcases h8 : convTo q unitQ (parseUnit cu) with _ | qc
                · simp only [h8]
                  rfl
                · simp only [h8]
                  exact hpoints (some (np_round (qc / cd)))

/-- Every error raised by the cube-like index conversion is an IndexError
(from an empty cumulative-lengths access). -/
theorem convert_index_error_eq (i : Int) (c : List Int) (e : PyErr)
    (h : convert_cube_like_index_to_sequence_indices i c = .error e) : e = .indexError := by
  unfold convert_cube_like_index_to_sequence_indices at h
  rcases h1 : pyGet c 0 with _ | c0
  · simp only [h1] at h
    injection h with h2
    exact h2.symm
  · simp only [h1] at h
    by_cases hc : i < c0
    · rw [if_pos hc] at h
      exact Except.noConfusion h
    · rw [if_neg hc] at h
      rcases h2 : ((List.range c.length).filter
          (fun j => c.getD j 0 ≤ i)).getLast? with _ | si
      · simp only [h2] at h
        injection h with h2x
        exact h2x.symm
      · simp only [h2] at h
        rcases h3 : pyGet c (-1) with _ | clast
        · simp only [h3] at h
          injection h with h2x
          exact h2x.symm
        · simp only [h3] at h
          exact Except.noConfusion h

/-- Every error raised by the cube-like slice conversion is an IndexError. -/
theorem convert_slice_seq_error_eq (s : PySlice) (c : List Int) (e : PyErr)
    (h : convert_cube_like_slice_to_sequence_slices s c = .error e) : e = .indexError := by
  unfold convert_cube_like_slice_to_sequence_slices at h
  have hstart : ∃ j, (match s.start with
      | some st => convert_cube_like_index_to_sequence_indices st c
      | none => convert_cube_like_index_to_sequence_indices 0 c) =
      convert_cube_like_index_to_sequence_indices j c := by
    cases s.start with
    | some st => exact ⟨st, rfl⟩
    | none => exact ⟨0, rfl⟩
  obtain ⟨j0, hj0⟩ := hstart
  rw [hj0] at h
  rcases hs1 : convert_cube_like_index_to_sequence_indices j0 c with e1 | ⟨sa, cal⟩
  · simp only [hs1] at h
    injection h with h2
    rw [← h2]
    exact convert_index_error_eq _ _ _ hs1
  · simp only [hs1] at h
    have hstop : (match s.stop with
        | some sp => convert_cube_like_index_to_sequence_indices sp c
        | none =>
          match pyGet c (-1) with
          | none => Except.error PyErr.indexError
          | some last => convert_cube_like_index_to_sequence_indices last c) =
        Except.error PyErr.indexError ∨
        ∃ j, (match s.stop with
        | some sp => convert_cube_like_index_to_sequence_indices sp c
        | none =>
          match pyGet c (-1) with
          | none => Except.error PyErr.indexError
          | some last => convert_cube_like_index_to_sequence_indices last c) =
        convert_cube_like_index_to_sequence_indices j c := by
      cases s.stop with
      | some sp => exact Or.inr ⟨sp, rfl⟩
      | none =>
        rcases hg : pyGet c (-1) with _ | last
        · left
          simp only [hg]
        · right
          exact ⟨last, by simp only [hg]⟩
    rcases hstop with hstop | ⟨j1, hstop⟩
    · rw [hstop] at h
      injection h with h2
      exact h2.symm
    · rw [hstop] at h
      rcases hs2 : convert_cube_like_index_to_sequence_indices j1 c with e2 | ⟨sb, cb⟩
      · simp only [hs2] at h
        injection h with h2
        rw [← h2]
        exact convert_index_error_eq _ _ _ hs2
      · simp only [hs2] at h
        have hadj : (match s.stop with
            | some sp =>
              match pyGet c (-1) with
              | none => Except.error PyErr.indexError
              | some last =>
                if ¬ (sp < last) then Except.ok (sb + 1, (0 : Int))
                else Except.ok (sb, cb)
            | none => Except.ok (sb, cb)) = Except.error PyErr.indexError ∨
            ∃ x y, (match s.stop with
            | some sp =>
              match pyGet c (-1) with
              | none => Except.error PyErr.indexError
              | some last =>
                if ¬ (sp < last) then Except.ok (sb + 1, (0 : Int))
                else Except.ok (sb, cb)
            | none => Except.ok (sb, cb)) = Except.ok (x, y) := by
          cases s.stop with
          | some sp =>
            rcases hg : pyGet c (-1) with _ | last
            · left
              simp only [hg]
            · by_cases hb : ¬ (sp < last)
              · right
                exact ⟨sb + 1, 0, by simp only [hg, if_pos hb]⟩
              · right
                exact ⟨sb, cb, by simp only [hg, if_neg hb]⟩
          | none => exact Or.inr ⟨sb, cb, rfl⟩
        rcases hadj with hadj | ⟨x, y, hadj⟩
        · rw [hadj] at h
          injection h with h2
          exact h2.symm
        · simp only [hadj] at h
          by_cases hne : sa ≠ x
          · rw [if_pos hne] at h
            rcases hcl : pyGet c sa with _ | cl
            · simp only [hcl] at h
              injection h with h2
              exact h2.symm
            · simp only [hcl] at h
              by_cases hy : y ≠ 0
              · rw [if_pos hy] at h
                exact Except.noConfusion h
              · rw [if_neg hy] at h
                exact Except.noConfusion h
          · rw [if_neg hne] at h
            exact Except.noConfusion h

/-- The orient validation failures are always plain ValueError. -/
theorem orient_errors_are_value_errors (a : NDArray) (w : WCSm) (ex : List NDArray) :
    errOnlyValueErr (orient a w ex) = true := by
  unfold orient
  split
  next => rfl
  next =>
    split
    next => rfl
    next =>
      split
      next => rfl
      next => rfl

/-- The index_sequence_as_cube input checks never raise the coded CubeError
kind: they raise ValueError, or IndexError/TypeError from the common-axis
lookup. -/
theorem index_seq_no_cube_error (ca : Nat) (ls : List Int) (rk : Nat) (it : Item) :
    errNotCube (index_sequence_as_cube ca ls rk it) = true := by
  cases it with
  | single e =>
    cases e with
    | pint n =>
      simp only [index_sequence_as_cube]
      by_cases hc : ca ≠ 0
      · rw [if_pos hc]
        rfl
      · rw [if_neg hc]
        rcases h1 : convert_cube_like_index_to_sequence_indices n (npCumsum ls)
            with e1 | ⟨si, ci⟩
        · simp only [h1, convert_index_error_eq _ _ _ h1]
          rfl
        · simp only [h1]
          rfl
    | pslc s =>
      simp only [index_sequence_as_cube]
      by_cases hc : ca ≠ 0
      · rw [if_pos hc]
        rfl
      · rw [if_neg hc]
        rcases h1 : convert_cube_like_slice_to_sequence_slices s (npCumsum ls)
            with e1 | ⟨ss, cs⟩
        · simp only [h1, convert_slice_seq_error_eq _ _ _ h1]
          rfl
        · simp only [h1]
          rfl
    | pother t =>
      simp only [index_sequence_as_cube]
      rfl
  | tup es =>
    simp only [index_sequence_as_cube]
    rcases hg : es.get? ca with _ | pe
    · simp only [hg]
      rfl
    · cases pe with
      | pint n =>
        simp only [hg]
        by_cases hl : es.length < ca
        · rw [if_pos hl]
          rfl
        · rw [if_neg hl]
          rcases h1 : convert_cube_like_index_to_sequence_indices n (npCumsum ls)
              with e1 | ⟨si, ci⟩
          · simp only [h1, convert_index_error_eq _ _ _ h1]
            rfl
          · simp only [h1]
            rfl
      | pslc s =>
        simp only [hg]
        by_cases hl : es.length < ca
        · rw [if_pos hl]
          rfl
        · rw [if_neg hl]
          rcases h1 : convert_cube_like_slice_to_sequence_slices s (npCumsum ls)
              with e1 | ⟨ss, cs⟩
          · simp only [h1, convert_slice_seq_error_eq _ _ _ h1]
            rfl
          · simp only [h1]
            rfl
      | pother t =>
        simp only [hg]
        rfl

/-- C4 (amended): the validation failures do not all carry the single coded
exception kind: every CubeError raised by the slice-to-pixel conversion
carries code 5 (within 0 to 6), but the orient rank/dimension checks raise
plain ValueError, and the index_sequence_as_cube input checks raise
ValueError (or IndexError/TypeError from the common-axis lookup), never the
coded kind; every failure is raised immediately with no retries and no
partial results. -/
theorem validation_error_kinds :
    (∀ (a : NDArray) (w : WCSm) (ex : List NDArray),
      errOnlyValueErr (orient a w ex) = true) ∧
    (∀ (it : QSlice) (w : WCSm) (ax : Nat) (sc : Bool),
      cubeErrOnlyCode5 (convert_slice it w ax sc) = true) ∧
    (∀ (ca : Nat) (ls : List Int) (rk : Nat) (it : Item),
      errNotCube (index_sequence_as_cube ca ls rk it) = true) :=
  ⟨orient_errors_are_value_errors, convert_slice_cube_errors_code5, index_seq_no_cube_error⟩

/-- A concrete 2-d array, rejected by the orient rank validation. -/
def arr2d : NDArray := { shape := [2, 2], data := [1, 2, 3, 4] }

/-- C4 counterexample: a concrete validation failure that does not carry the
single coded exception kind: orient on a 2-d array raises a plain
ValueError, which is not a CubeError with a numeric code. -/
theorem orient_raises_uncoded_value_error :
    orient arr2d wcsW [] = .error (.valueError "Input array must be 3- or 4-dimensional") ∧
    PyErr.isCubeErr (.valueError "Input array must be 3- or 4-dimensional") = false :=
  ⟨rfl, rfl⟩

end Sunpycube
